import Mathlib

/-!
Verification of the Unity connection-management subsystem of the
Movesia extension backend (session admission, heartbeat, message
routing, command correlation), as a shallow embedding in Lean 4.

Python dicts are embedded as association lists with unique keys
(`dictGet` / `dictSet` / `dictRemove` mirror `d.get`, `d[k] = v` and
`del d[k]`); times are embedded as rationals (seconds, as produced by
`time.time()`); WebSocket handles are an abstract type with decidable
identity (Python `is`).
-/

set_option linter.unusedVariables false

namespace Movesia

/-- The `ConnectionSource` enum from `types.py`. -/
inductive ConnectionSource
  | unity
  | vscode
  | electron
deriving DecidableEq, Repr

/-- The `.value` of the `ConnectionSource` string enum. -/
def ConnectionSource.value : ConnectionSource → String
  | .unity => "unity"
  | .vscode => "vscode"
  | .electron => "electron"

/-- The `ConnectionSource(s)` constructor lookup: `none` models the
`ValueError` raised for a string that is not a member value. -/
def connectionSourceOfString (s : String) : Option ConnectionSource :=
  if s = "unity" then some .unity
  else if s = "vscode" then some .vscode
  else if s = "electron" then some .electron
  else none

/-- The `ConnectionState` enum from `types.py` (`opened` models `OPEN`). -/
inductive ConnectionState
  | connecting
  | opened
  | closing
  | closed
deriving DecidableEq, Repr

/-! ## Python dict as an association list -/

/-- The `d.get(k)` on a Python dict. -/
def dictGet {α : Type} (l : List (String × α)) (k : String) : Option α :=
  match l with
  | [] => none
  | (k', v) :: rest => if k' = k then some v else dictGet rest k

/-- The `d[k] = v` on a Python dict: replaces in place, else appends
(insertion order preserved, as in CPython). -/
def dictSet {α : Type} (l : List (String × α)) (k : String) (v : α) :
    List (String × α) :=
  match l with
  | [] => [(k, v)]
  | (k', v') :: rest =>
      if k' = k then (k, v) :: rest else (k', v') :: dictSet rest k v

/-- The `del d[k]` on a Python dict (first occurrence; keys are unique). -/
def dictRemove {α : Type} (l : List (String × α)) (k : String) :
    List (String × α) :=
  match l with
  | [] => []
  | (k', v') :: rest =>
      if k' = k then rest else (k', v') :: dictRemove rest k

/-- The keys of a dict. -/
def dictKeys {α : Type} (l : List (String × α)) : List String :=
  l.map Prod.fst

/-! ## Connection records and session entries (`types.py`) -/

/-- The `ExtendedConnection` dataclass from `types.py` (times in seconds as
rationals; the `time.time()` field defaults are supplied by callers). -/
structure ExtendedConnection where
  cid : String
  session : Option String := none
  project_path : Option String := none
  conn_seq : Int := 0
  is_alive : Bool := true
  missed_pongs : Nat := 0
  last_seen : Rat := 0
  last_ping_sent : Option Rat := none
  latency_ms : Option Rat := none
  connected_at : Rat := 0
  closing_since : Option Rat := none
  state : ConnectionState := ConnectionState.connecting
  unity_version : Option String := none
  is_compiling : Bool := false
deriving DecidableEq, Repr

/-- The `SessionEntry` dataclass from `types.py`; `ω` is the WebSocket
handle type (identity comparison = equality on `ω`). -/
structure SessionEntry (ω : Type) where
  session_id : String
  conn_seq : Int
  connection : ExtendedConnection
  websocket : ω
  created_at : Rat := 0
deriving DecidableEq, Repr

/-- The `AcceptDecision` dataclass from `sessions.py`. -/
structure AcceptDecision (ω : Type) where
  accept : Bool
  supersede : Option ω := none
  reason : Option String := none
deriving DecidableEq, Repr

/-! ## Session manager (`sessions.py`) -/

/-- The rejection reason f-string of `SessionManager.accept`. -/
def staleReason (conn_seq existing_seq : Int) : String :=
  "Connection sequence " ++ toString conn_seq ++ " <= current " ++
    toString existing_seq

/-- The `SessionManager.accept` from `sessions.py` (lines 52-111): the state
is `self._sessions`; the body runs under `self._lock`, so it is one
atomic state transition. -/
def SessionManager.accept {ω : Type} (self : List (String × SessionEntry ω))
    (session_id : String) (conn_seq : Int) (connection : ExtendedConnection)
    (websocket : ω) (now : Rat) :
    AcceptDecision ω × List (String × SessionEntry ω) :=
  match dictGet self session_id with
  | none =>
      ({ accept := true },
       dictSet self session_id
         { session_id := session_id, conn_seq := conn_seq,
           connection := connection, websocket := websocket,
           created_at := now })
  | some existing =>
      if conn_seq ≤ existing.conn_seq then
        ({ accept := false,
           reason := some (staleReason conn_seq existing.conn_seq) }, self)
      else
        ({ accept := true, supersede := some existing.websocket },
         dictSet self session_id
           { session_id := session_id, conn_seq := conn_seq,
             connection := connection, websocket := websocket,
             created_at := now })

/-- The `SessionManager.clear_if_match` from `sessions.py` (lines 113-137). -/
def SessionManager.clear_if_match {ω : Type} [DecidableEq ω]
    (self : List (String × SessionEntry ω)) (session_id : String)
    (websocket : ω) : Bool × List (String × SessionEntry ω) :=
  match dictGet self session_id with
  | some entry =>
      if entry.websocket = websocket then (true, dictRemove self session_id)
      else (false, self)
  | none => (false, self)

/-- The `UnitySessionManager.clear_if_match` from `sessions.py` (lines
272-287): identity-gated removal plus project-map cleanup. State is the
pair `self._sessions`, `self._project_to_session`; the Python truthiness
test on `project_path` treats `None` and `""` as absent. -/
def UnitySessionManager.clear_if_match {ω : Type} [DecidableEq ω]
    (sessions : List (String × SessionEntry ω))
    (project_to_session : List (String × String))
    (session_id : String) (websocket : ω) :
    Bool × List (String × SessionEntry ω) × List (String × String) :=
  match dictGet sessions session_id with
  | some entry =>
      if entry.websocket = websocket then
        (true, dictRemove sessions session_id,
         match entry.connection.project_path with
         | some p =>
             if p = "" then project_to_session
             else dictRemove project_to_session p
         | none => project_to_session)
      else (false, sessions, project_to_session)
  | none => (false, sessions, project_to_session)

/-! ## Message envelope (`types.py`) -/

/-- A JSON wire object for the envelope: a key is present iff the field
is `some`. The `body` payload type is a parameter `β` because `to_dict`
and `from_dict` pass the body through untouched. -/
structure WireDict (β : Type) where
  source : Option String := none
  type : Option String := none
  ts : Option Int := none
  id : Option String := none
  body : Option β := none
  session : Option String := none
deriving DecidableEq, Repr

/-- The `MovesiaMessage` dataclass from `types.py` (lines 29-60). -/
structure MovesiaMessage (β : Type) where
  source : ConnectionSource
  type : String
  ts : Int
  id : String
  body : β
  session : Option String := none
deriving DecidableEq, Repr

/-- The `MovesiaMessage.to_dict` from `types.py` (lines 62-71): the
`session` key is emitted only when `self.session` is truthy (neither
`None` nor the empty string). -/
def MovesiaMessage.to_dict {β : Type} (m : MovesiaMessage β) : WireDict β :=
  { source := some m.source.value
    type := some m.type
    ts := some m.ts
    id := some m.id
    body := some m.body
    session :=
      match m.session with
      | some s => if s = "" then none else some s
      | none => none }

/-- The `MovesiaMessage.from_dict` from `types.py` (lines 73-90): `now` is
`int(time.time())` (the default for a missing `ts`) and `emptyBody` is
the `{}` default for a missing `body`; an unknown `source` string falls
back to `UNITY`. -/
def MovesiaMessage.from_dict {β : Type} (now : Int) (emptyBody : β)
    (d : WireDict β) : MovesiaMessage β :=
  { source :=
      (connectionSourceOfString (d.source.getD "unity")).getD
        ConnectionSource.unity
    type := d.type.getD "unknown"
    ts := d.ts.getD now
    id := d.id.getD ""
    body := d.body.getD emptyBody
    session := d.session }

/-! ## Message router (`router.py`) -/

/-- The untyped message body: a string-keyed JSON object (the only key
the routing layer ever reads is `request_id`, a string). -/
abbrev Body := List (String × String)

/-- The `ACK_REQUIRED_TYPES` from `types.py` (lines 191-203). -/
def ACK_REQUIRED_TYPES : List String :=
  ["hello", "assets_imported", "assets_deleted", "assets_moved",
   "scene_saved", "project_changed", "compile_started", "compile_finished",
   "will_save_assets", "hierarchy_changed", "selection_changed"]

/-- The `ExtendedConnection.update_seen` from `types.py` (lines 122-127). -/
def ExtendedConnection.update_seen (c : ExtendedConnection) (now : Rat) :
    ExtendedConnection :=
  { c with last_seen := now, is_alive := true, missed_pongs := 0 }

/-- Side effects of `MessageRouter.handle_message` (sends and callback
invocations, in order). -/
inductive RouterAction
  | sendPong (id : String)
  | sendAck (id : String)
  | suspendHeartbeat (duration_ms : Int)
  | compilationStarted (cid : String)
  | compilationFinished (cid : String)
  | domainEvent (msg : MovesiaMessage Body)
deriving DecidableEq, Repr

/-- The `MessageRouter._validate_message` from `router.py` (lines 126-162):
all four required envelope keys must be present (the `body` key defaults
to `{}` inside `from_dict`; the `type`-is-a-string check always passes
in this typed embedding). -/
def MessageRouter.validate_message (nowTs : Int) (data : WireDict Body) :
    Option (MovesiaMessage Body) :=
  if data.source.isNone || data.type.isNone || data.ts.isNone ||
      data.id.isNone then none
  else some (MovesiaMessage.from_dict nowTs [] data)

/-- The `MessageRouter._handle_special_types` from `router.py` (lines
164-225): returns the updated connection, whether the message was
consumed internally, and the side effects (all router callbacks are
installed by the orchestrator). -/
def MessageRouter.handle_special_types (conn : ExtendedConnection)
    (msg : MovesiaMessage Body) :
    ExtendedConnection × Bool × List RouterAction :=
  if msg.type = "hb" then (conn, true, [RouterAction.sendPong msg.id])
  else if msg.type = "ack" then (conn, true, [])
  else if msg.type = "pong" then (conn, true, [])
  else if msg.type = "compile_started" then
    ({ conn with is_compiling := true }, false,
     [RouterAction.suspendHeartbeat 120000,
      RouterAction.compilationStarted conn.cid])
  else if msg.type = "compile_finished" then
    ({ conn with is_compiling := false }, false,
     [RouterAction.suspendHeartbeat 30000,
      RouterAction.compilationFinished conn.cid])
  else (conn, false, [])

/-- The `MessageRouter.handle_message` from `router.py` (lines 71-124). The
raw frame is embedded post-JSON-decoding: `none` models a frame that
fails JSON or UTF-8 decoding, `some data` one that parses to the object
`data`. Faithful to the source, `connection.update_seen()` runs FIRST,
before parsing. Returns the updated connection, the forwarded message
(`none` = dropped or internal; no exception escapes), and the actions. -/
def MessageRouter.handle_message (conn : ExtendedConnection)
    (raw : Option (WireDict Body)) (now : Rat) (nowTs : Int) :
    ExtendedConnection × Option (MovesiaMessage Body) × List RouterAction :=
  let conn1 := conn.update_seen now
  match raw with
  | none => (conn1, none, [])
  | some data =>
      match MessageRouter.validate_message nowTs data with
      | none => (conn1, none, [])
      | some msg =>
          let conn2 :=
            match msg.session with
            | some s =>
                if s = "" then conn1 else { conn1 with session := some s }
            | none => conn1
          match MessageRouter.handle_special_types conn2 msg with
          | (conn3, true, acts) => (conn3, none, acts)
          | (conn3, false, acts) =>
              let acts2 :=
                if msg.type ∈ ACK_REQUIRED_TYPES then
                  acts ++ [RouterAction.sendAck msg.id]
                else acts
              (conn3, some msg, acts2 ++ [RouterAction.domainEvent msg])

/-! ## Command correlation (`router.py` / `unity_manager.py`) -/

/-- The state of an `asyncio.Future`. -/
inductive FutureState (β : Type)
  | pending
  | resolved (value : β)
  | failed (reason : String)
  | cancelled
deriving DecidableEq, Repr

/-- The `future.done()`. -/
def FutureState.done {β : Type} : FutureState β → Bool
  | FutureState.pending => false
  | _ => true

/-- The `CommandRouter.handle_response` from `router.py` (lines 319-343):
correlation is by the `request_id` field of the message BODY (Python
falsiness: a missing or empty `request_id` returns `False`; so does a
matching future that is already done). -/
def CommandRouter.handle_response
    (pending : List (String × FutureState Body))
    (msg : MovesiaMessage Body) :
    Bool × List (String × FutureState Body) :=
  match dictGet msg.body "request_id" with
  | none => (false, pending)
  | some rid =>
      if rid = "" then (false, pending)
      else
        match dictGet pending rid with
        | some FutureState.pending =>
            (true, dictSet pending rid (FutureState.resolved msg.body))
        | some _ => (false, pending)
        | none => (false, pending)

/-- The reply-matching step at the end of `UnityManager._message_loop`
(`unity_manager.py` lines 337-342): a routed message resolves the
pending command whose map key equals the message's envelope `id`. -/
def UnityManager.message_loop_match
    (pending : List (String × FutureState Body))
    (msg : MovesiaMessage Body) : List (String × FutureState Body) :=
  match dictGet pending msg.id with
  | some FutureState.pending =>
      dictSet pending msg.id (FutureState.resolved msg.body)
  | some _ => pending
  | none => pending

/-! ## Heartbeat engine (`heartbeat.py`) -/

/-- The `HeartbeatConfig` from `types.py` (lines 165-176), milliseconds. -/
structure HeartbeatConfig where
  sweep_interval_ms : Int := 40000
  ping_after_idle_ms : Int := 90000
  max_idle_ms : Int := 600000
  pong_timeout_ms : Int := 20000
  max_missed_pongs : Nat := 3
  closing_force_kill_ms : Int := 10000
  compile_suspend_ms : Int := 120000
  post_compile_grace_ms : Int := 30000
deriving DecidableEq, Repr

/-- Side effects of one `_check_connection` call: `closeConn` is the
graceful `_close` (code + reason), `terminate` the forced `_terminate`
(close 1011 "terminated" and drop the pending ping), `pingSent` a ping
with its recorded send time (`_pending_pings[cid] = now`). -/
inductive HeartbeatAction (ω : Type)
  | closeConn (ws : ω) (code : Int) (reason : String)
  | terminate (ws : ω)
  | pingSent (ws : ω) (cid : String) (sentAt : Rat)
deriving DecidableEq, Repr

/-- The `HeartbeatManager._check_connection` from `heartbeat.py` (lines
161-215): one sweep step for one connection; returns the updated
connection record and the side effects, in source order. -/
def HeartbeatManager.check_connection {ω : Type} (cfg : HeartbeatConfig)
    (entry : SessionEntry ω) (now : Rat) :
    ExtendedConnection × List (HeartbeatAction ω) :=
  let conn := entry.connection
  let ws := entry.websocket
  if conn.state = ConnectionState.closing then
    match conn.closing_since with
    | some since =>
        if now - since > (cfg.closing_force_kill_ms : Rat) / 1000 then
          (conn, [HeartbeatAction.terminate ws])
        else (conn, [])
    | none => (conn, [])
  else if conn.state ≠ ConnectionState.opened then (conn, [])
  else
    let idle_ms := (now - conn.last_seen) * 1000
    if idle_ms > (cfg.max_idle_ms : Rat) then
      (conn, [HeartbeatAction.closeConn ws 1001 "idle timeout"])
    else if idle_ms ≤ (cfg.ping_after_idle_ms : Rat) then
      ({ conn with is_alive := true, missed_pongs := 0 }, [])
    else if conn.is_alive = false then
      let conn2 := { conn with missed_pongs := conn.missed_pongs + 1 }
      if conn2.missed_pongs ≥ cfg.max_missed_pongs then
        (conn2, [HeartbeatAction.terminate ws])
      else
        ({ conn2 with is_alive := false },
         [HeartbeatAction.pingSent ws conn.cid now])
    else
      ({ conn with is_alive := false },
       [HeartbeatAction.pingSent ws conn.cid now])

/-- The `HeartbeatManager.suspend` from `heartbeat.py` (lines 87-104): the
new value of `self._suspend_until` (only ever extended). -/
def HeartbeatManager.suspend (now : Rat) (suspend_until : Rat)
    (duration_ms : Int) : Rat :=
  let s := now + (duration_ms : Rat) / 1000
  if s > suspend_until then s else suspend_until

/-- The `HeartbeatManager.is_suspended` from `heartbeat.py` (lines
102-104). -/
def HeartbeatManager.is_suspended (now : Rat) (suspend_until : Rat) :
    Bool :=
  now < suspend_until

/-- One post-sleep iteration of `HeartbeatManager._heartbeat_loop`
(`heartbeat.py` lines 121-142): whether `_sweep_connections` runs. -/
def HeartbeatManager.loop_runs_sweep (running : Bool) (now : Rat)
    (suspend_until : Rat) : Bool :=
  if running = false then false
  else if HeartbeatManager.is_suspended now suspend_until then false
  else true

/-! ## Connection orchestrator (`unity_manager.py`, deprecated agent) -/

/-- The `CloseCode.SUPERSEDED` from `types.py`. -/
def CloseCode.SUPERSEDED : Int := 4001

/-- The `CloseCode.DUPLICATE_SESSION` from `types.py`. -/
def CloseCode.DUPLICATE_SESSION : Int := 4002

/-- The observable steps of `UnityManager.handle_connection` after the
admission decision (`unity_manager.py` lines 158-201), in source
order. -/
inductive ConnEvent (ω : Type)
  | closeTransport (ws : ω) (code : Int) (reason : String)
  | installPrimary (ws : ω) (session_id : String)
  | startHeartbeat
  | notifyConnectionChange (connected : Bool)
  | sendWelcome (ws : ω)
  | messageLoop (ws : ω)
deriving DecidableEq, Repr

/-- The linearized post-admission trace of
`UnityManager.handle_connection` (`unity_manager.py` lines 158-201):
on rejection, close with `DUPLICATE_SESSION`; on acceptance, first
close any superseded transport with `SUPERSEDED`, THEN install the new
websocket as the primary (`self._current_ws = websocket`), start the
heartbeat, notify subscribers, send the welcome and enter the message
loop. -/
def UnityManager.handle_connection_trace {ω : Type}
    (decision : AcceptDecision ω) (websocket : ω) (session_id : String) :
    List (ConnEvent ω) :=
  if decision.accept = false then
    [ConnEvent.closeTransport websocket CloseCode.DUPLICATE_SESSION
       (decision.reason.getD "duplicate session")]
  else
    (match decision.supersede with
     | some old_ws =>
         [ConnEvent.closeTransport old_ws CloseCode.SUPERSEDED
            "superseded by newer connection"]
     | none => []) ++
    [ConnEvent.installPrimary websocket session_id,
     ConnEvent.startHeartbeat,
     ConnEvent.notifyConnectionChange true,
     ConnEvent.sendWelcome websocket,
     ConnEvent.messageLoop websocket]

/-- The `set_exception` on a not-yet-done future, identity otherwise. -/
def failNotDone {β : Type} (reason : String) :
    FutureState β → FutureState β
  | FutureState.pending => FutureState.failed reason
  | f => f

/-- The pending-command step of `UnityManager._cleanup_connection`
(`unity_manager.py` lines 362-366): every not-yet-done future gets
`RuntimeError("Connection closed")` and the map is cleared. First
component: the final states of the futures the callers hold; second:
the `_pending_commands` map afterwards. -/
def UnityManager.cleanup_connection_pending
    (pending : List (String × FutureState Body)) :
    List (String × FutureState Body) × List (String × FutureState Body) :=
  (pending.map (fun p => (p.1, failNotDone "Connection closed" p.2)), [])

/-- The `UnityManager._on_compilation_started` (`unity_manager.py` lines
385-393): same shape with `RuntimeError("Compilation started")`. -/
def UnityManager.on_compilation_started_pending
    (pending : List (String × FutureState Body)) :
    List (String × FutureState Body) × List (String × FutureState Body) :=
  (pending.map (fun p => (p.1, failNotDone "Compilation started" p.2)), [])

/-- A network send performed by `send_and_wait`. -/
inductive NetAction (ω : Type)
  | sendEnvelope (ws : ω) (msg : MovesiaMessage Body)
deriving DecidableEq, Repr

/-- The `_current_*` pointers and pending-command map of
`UnityManager`. -/
structure ManagerState (ω : Type) where
  current_ws : Option ω
  current_connection : Option ExtendedConnection
  current_session : Option String
  pending_commands : List (String × FutureState Body)
deriving DecidableEq, Repr

/-- The pre-await phase of `UnityManager.send_and_wait`
(`unity_manager.py` lines 209-253): the no-connection guard (`if not
self._current_ws or not self._current_connection: raise RuntimeError`),
envelope construction (`msgId` / `ts` stand for the generated uuid and
timestamp), registration of the pending future keyed by the envelope
id, and the send. `Except.error` models the raised `RuntimeError`. -/
def UnityManager.send_and_wait_start {ω : Type} (st : ManagerState ω)
    (command_type : String) (params : Body) (msgId : String) (ts : Int) :
    Except String (ManagerState ω × List (NetAction ω)) :=
  match st.current_ws, st.current_connection with
  | some ws, some _ =>
      Except.ok
        ({ st with pending_commands :=
             dictSet st.pending_commands msgId FutureState.pending },
         [NetAction.sendEnvelope ws
            { source := ConnectionSource.vscode, type := command_type,
              ts := ts, id := msgId, body := params,
              session := st.current_session }])
  | _, _ => Except.error "No Unity connection available"

/-! ## Dict lemmas -/

theorem dictGet_dictSet_self {α : Type} (l : List (String × α))
    (k : String) (v : α) : dictGet (dictSet l k v) k = some v := by
  induction l with
  | nil => simp [dictSet, dictGet]
  | cons p rest ih =>
      obtain ⟨k', v'⟩ := p
      by_cases h : k' = k
      · simp [dictSet, dictGet, h]
      · simp [dictSet, dictGet, h, ih]

theorem dictGet_dictSet_ne {α : Type} (l : List (String × α))
    (k k' : String) (v : α) (h : k' ≠ k) :
    dictGet (dictSet l k v) k' = dictGet l k' := by
  induction l with
  | nil => simp [dictSet, dictGet, Ne.symm h]
  | cons p rest ih =>
      obtain ⟨k₀, v₀⟩ := p
      by_cases h₀ : k₀ = k
      · subst h₀
        simp [dictSet, dictGet, Ne.symm h]
      · by_cases h₁ : k₀ = k'
        · subst h₁
          simp [dictSet, dictGet, h₀]
        · simp [dictSet, dictGet, h₀, h₁, ih]

theorem dictGet_eq_none_of_not_mem {α : Type} (l : List (String × α))
    (k : String) (h : k ∉ dictKeys l) : dictGet l k = none := by
  induction l with
  | nil => simp [dictGet]
  | cons p rest ih =>
      obtain ⟨k', v'⟩ := p
      simp only [dictKeys, List.map_cons, List.mem_cons, not_or] at h
      simp [dictGet, Ne.symm h.1, ih (by simpa [dictKeys] using h.2)]

theorem mem_dictKeys_dictSet {α : Type} (l : List (String × α))
    (k k' : String) (v : α) (h : k' ∈ dictKeys (dictSet l k v)) :
    k' = k ∨ k' ∈ dictKeys l := by
  induction l with
  | nil =>
      simp [dictSet, dictKeys] at h
      exact Or.inl h
  | cons p rest ih =>
      obtain ⟨k₀, v₀⟩ := p
      by_cases h₀ : k₀ = k
      · subst h₀
        simp [dictSet, dictKeys] at h ⊢
        tauto
      · simp only [dictSet, if_neg h₀, dictKeys, List.map_cons,
          List.mem_cons] at h ⊢
        rcases h with h | h
        · tauto
        · rcases ih (by simpa [dictKeys] using h) with h' | h'
          · tauto
          · simp [dictKeys] at h'
            tauto

theorem dictKeys_dictSet_nodup {α : Type} (l : List (String × α))
    (k : String) (v : α) (h : (dictKeys l).Nodup) :
    (dictKeys (dictSet l k v)).Nodup := by
  induction l with
  | nil => simp [dictSet, dictKeys]
  | cons p rest ih =>
      obtain ⟨k₀, v₀⟩ := p
      simp only [dictKeys, List.map_cons, List.nodup_cons] at h
      by_cases h₀ : k₀ = k
      · subst h₀
        have hset : dictSet ((k₀, v₀) :: rest) k₀ v = (k₀, v) :: rest := by
          simp [dictSet]
        rw [hset]
        simp only [dictKeys, List.map_cons, List.nodup_cons]
        exact ⟨h.1, h.2⟩
      · have hmem : k₀ ∉ dictKeys (dictSet rest k v) := by
          intro hc
          rcases mem_dictKeys_dictSet rest k k₀ v hc with h' | h'
          · exact h₀ h'
          · exact h.1 (by simpa [dictKeys] using h')
        simp only [dictSet, if_neg h₀, dictKeys, List.map_cons,
          List.nodup_cons]
        exact ⟨by simpa [dictKeys] using hmem, ih h.2⟩

theorem dictGet_dictRemove_self {α : Type} (l : List (String × α))
    (k : String) (h : (dictKeys l).Nodup) :
    dictGet (dictRemove l k) k = none := by
  induction l with
  | nil => simp [dictRemove, dictGet]
  | cons p rest ih =>
      obtain ⟨k', v'⟩ := p
      simp only [dictKeys, List.map_cons, List.nodup_cons] at h
      by_cases h₀ : k' = k
      · subst h₀
        simp only [dictRemove, if_pos rfl]
        exact dictGet_eq_none_of_not_mem rest k' (by simpa [dictKeys] using h.1)
      · simp [dictRemove, dictGet, h₀, ih h.2]

theorem dictGet_dictRemove_ne {α : Type} (l : List (String × α))
    (k k' : String) (h : k' ≠ k) :
    dictGet (dictRemove l k) k' = dictGet l k' := by
  induction l with
  | nil => simp [dictRemove]
  | cons p rest ih =>
      obtain ⟨k₀, v₀⟩ := p
      by_cases h₀ : k₀ = k
      · subst h₀
        simp [dictRemove, dictGet, Ne.symm h]
      · simp only [dictRemove, if_neg h₀, dictGet]
        by_cases h₁ : k₀ = k'
        · simp [h₁]
        · simp [h₁, ih]

theorem dictGet_map_value {α β : Type} (l : List (String × α))
    (g : α → β) (k : String) :
    dictGet (l.map (fun p => (p.1, g p.2))) k = (dictGet l k).map g := by
  induction l with
  | nil => rfl
  | cons p rest ih =>
      obtain ⟨k', v⟩ := p
      by_cases h : k' = k
      · simp [dictGet, h]
      · simp [dictGet, h, ih]

/-! ## Claim C1 -/

/-- C1: For every sequence of `SessionManager.accept` calls with the same
`session_id`, at most one entry is stored for that `session_id` at any
time (the session dict keeps unique keys); a call whose connection
sequence is `<=` the stored entry's sequence returns `accept=false` with
a reason naming both sequences and leaves the state unchanged; a call
with a strictly greater sequence returns `accept=true` and replaces the
entry; a call with no existing entry returns `accept=true` with no
supersession. -/
theorem C1_accept_monotonic_takeover {ω : Type}
    (st : List (String × SessionEntry ω)) (sid : String) (seq : Int)
    (conn : ExtendedConnection) (ws : ω) (now : Rat)
    (hnd : (dictKeys st).Nodup) :
    (dictKeys (SessionManager.accept st sid seq conn ws now).2).Nodup ∧
    (∀ e, dictGet st sid = some e → seq ≤ e.conn_seq →
      (SessionManager.accept st sid seq conn ws now).1.accept = false ∧
      (SessionManager.accept st sid seq conn ws now).1.reason =
        some (staleReason seq e.conn_seq) ∧
      (SessionManager.accept st sid seq conn ws now).2 = st) ∧
    (∀ e, dictGet st sid = some e → e.conn_seq < seq →
      (SessionManager.accept st sid seq conn ws now).1.accept = true ∧
      (SessionManager.accept st sid seq conn ws now).1.supersede =
        some e.websocket ∧
      dictGet (SessionManager.accept st sid seq conn ws now).2 sid =
        some { session_id := sid, conn_seq := seq, connection := conn,
               websocket := ws, created_at := now }) ∧
    (dictGet st sid = none →
      (SessionManager.accept st sid seq conn ws now).1.accept = true ∧
      (SessionManager.accept st sid seq conn ws now).1.supersede = none ∧
      dictGet (SessionManager.accept st sid seq conn ws now).2 sid =
        some { session_id := sid, conn_seq := seq, connection := conn,
               websocket := ws, created_at := now }) := by
  refine ⟨?_, ?_, ?_, ?_⟩
  · unfold SessionManager.accept
    cases hget : dictGet st sid with
    | none => exact dictKeys_dictSet_nodup st sid _ hnd
    | some existing =>
        by_cases hle : seq ≤ existing.conn_seq
        · simpa [hle] using hnd
        · simpa [hle] using dictKeys_dictSet_nodup st sid _ hnd
  · intro e he hle
    unfold SessionManager.accept
    rw [he]
    simp [hle]
  · intro e he hlt
    have hnle : ¬ seq ≤ e.conn_seq := not_le.mpr hlt
    unfold SessionManager.accept
    rw [he]
    simp [hnle, dictGet_dictSet_self]
  · intro he
    unfold SessionManager.accept
    rw [he]
    exact ⟨rfl, rfl, dictGet_dictSet_self st sid _⟩

/-- Witness for C1 at a concrete state: a second connection with equal
sequence 1 for session `"s1"` is rejected. -/
theorem C1_accept_monotonic_takeover_witness :
    (SessionManager.accept
        [("s1", { session_id := "s1", conn_seq := 1,
                  connection := { cid := "c0" }, websocket := (1 : Nat) })]
        "s1" 1 { cid := "c1" } (2 : Nat) 5).1.accept = false :=
  ((C1_accept_monotonic_takeover
      [("s1", { session_id := "s1", conn_seq := 1,
                connection := { cid := "c0" }, websocket := (1 : Nat) })]
      "s1" 1 { cid := "c1" } 2 5 (by decide)).2.1
    { session_id := "s1", conn_seq := 1, connection := { cid := "c0" },
      websocket := 1 }
    (by decide) (by decide)).1

/-! ## Claim C9 -/

/-- C9: `clear_if_match(session_id, websocket)` removes the entry for
`session_id` iff an entry exists and its stored websocket is the given
one, returning `true` exactly in that case; otherwise the state is
unchanged and `false` is returned; other session ids are never affected;
and `UnitySessionManager.clear_if_match` agrees with the base class on
the returned flag and the session dict. -/
theorem C9_clear_if_match_identity_gated {ω : Type} [DecidableEq ω]
    (st : List (String × SessionEntry ω)) (pmap : List (String × String))
    (sid : String) (ws : ω) (hnd : (dictKeys st).Nodup) :
    ((SessionManager.clear_if_match st sid ws).1 = true ↔
      ∃ e, dictGet st sid = some e ∧ e.websocket = ws) ∧
    ((SessionManager.clear_if_match st sid ws).1 = true →
      dictGet (SessionManager.clear_if_match st sid ws).2 sid = none) ∧
    ((SessionManager.clear_if_match st sid ws).1 = false →
      (SessionManager.clear_if_match st sid ws).2 = st) ∧
    (∀ sid2, sid2 ≠ sid →
      dictGet (SessionManager.clear_if_match st sid ws).2 sid2 =
        dictGet st sid2) ∧
    (UnitySessionManager.clear_if_match st pmap sid ws).1 =
      (SessionManager.clear_if_match st sid ws).1 ∧
    (UnitySessionManager.clear_if_match st pmap sid ws).2.1 =
      (SessionManager.clear_if_match st sid ws).2 := by
  cases hget : dictGet st sid with
  | none =>
      have h1 : SessionManager.clear_if_match st sid ws = (false, st) := by
        unfold SessionManager.clear_if_match
        rw [hget]
      have h2 : UnitySessionManager.clear_if_match st pmap sid ws =
          (false, st, pmap) := by
        unfold UnitySessionManager.clear_if_match
        rw [hget]
      refine ⟨?_, ?_, ?_, ?_, ?_, ?_⟩ <;> simp [h1, h2, hget]
  | some entry =>
      by_cases hws : entry.websocket = ws
      · have h1 : SessionManager.clear_if_match st sid ws =
            (true, dictRemove st sid) := by
          unfold SessionManager.clear_if_match
          rw [hget]
          simp [hws]
        have h2 : (UnitySessionManager.clear_if_match st pmap sid ws).1 =
              true ∧
            (UnitySessionManager.clear_if_match st pmap sid ws).2.1 =
              dictRemove st sid := by
          unfold UnitySessionManager.clear_if_match
          rw [hget]
          simp [hws]
        refine ⟨?_, ?_, ?_, ?_, ?_, ?_⟩
        · constructor
          · intro _
            exact ⟨entry, rfl, hws⟩
          · intro _
            rw [h1]
        · intro _
          rw [h1]
          exact dictGet_dictRemove_self st sid hnd
        · intro hc
          rw [h1] at hc
          simp at hc
        · intro sid2 hne
          rw [h1]
          exact dictGet_dictRemove_ne st sid sid2 hne
        · rw [h1, h2.1]
        · rw [h1, h2.2]
      · have h1 : SessionManager.clear_if_match st sid ws = (false, st) := by
          unfold SessionManager.clear_if_match
          rw [hget]
          simp [hws]
        have h2 : UnitySessionManager.clear_if_match st pmap sid ws =
            (false, st, pmap) := by
          unfold UnitySessionManager.clear_if_match
          rw [hget]
          simp [hws]
        refine ⟨?_, ?_, ?_, ?_, ?_, ?_⟩
        · constructor
          · intro hc
            rw [h1] at hc
            simp at hc
          · rintro ⟨e, he, hwse⟩
            cases he
            exact absurd hwse hws
        · intro hc
          rw [h1] at hc
          simp at hc
        · intro _
          rw [h1]
        · intro sid2 hne
          rw [h1]
        · rw [h1, h2]
        · rw [h1, h2]

/-- Witness for C9 at a concrete state: a disconnect carrying a stale
websocket handle (2) does not clear the entry owned by handle 5. -/
theorem C9_clear_if_match_identity_gated_witness :
    (SessionManager.clear_if_match
        [("s1", { session_id := "s1", conn_seq := 3,
                  connection := { cid := "c0" }, websocket := (5 : Nat) })]
        "s1" (2 : Nat)).2 =
      [("s1", { session_id := "s1", conn_seq := 3,
                connection := { cid := "c0" }, websocket := (5 : Nat) })] :=
  ((C9_clear_if_match_identity_gated
      [("s1", { session_id := "s1", conn_seq := 3,
                connection := { cid := "c0" }, websocket := (5 : Nat) })]
      [] "s1" 2 (by decide)).2.2.1 (by decide))

/-! ## Claim C10 -/

/-- C10: for every message whose `session` is `None` or a non-empty
string, parsing the serialized form is the identity:
`from_dict(to_dict(m)) = m` (all six fields preserved). -/
theorem C10_roundtrip {β : Type} (now : Int) (emptyBody : β)
    (m : MovesiaMessage β)
    (hs : m.session = none ∨ ∃ s, m.session = some s ∧ s ≠ "") :
    MovesiaMessage.from_dict now emptyBody (MovesiaMessage.to_dict m) = m := by
  have hsrc : connectionSourceOfString m.source.value = some m.source := by
    cases m.source <;> rfl
  obtain ⟨src, ty, mts, mid, mbody, sess⟩ := m
  simp only at hsrc
  rcases hs with hs | ⟨s, hs, hne⟩ <;> simp only at hs
  · subst hs
    simp [MovesiaMessage.to_dict, MovesiaMessage.from_dict, hsrc]
  · subst hs
    simp [MovesiaMessage.to_dict, MovesiaMessage.from_dict, hne, hsrc]

/-- Witness for C10 at a concrete message with a non-empty session. -/
theorem C10_roundtrip_witness :
    MovesiaMessage.from_dict 0 (0 : Nat)
        (MovesiaMessage.to_dict
          { source := ConnectionSource.unity, type := "hello", ts := 42,
            id := "m1", body := (7 : Nat), session := some "s1" }) =
      { source := ConnectionSource.unity, type := "hello", ts := 42,
        id := "m1", body := (7 : Nat), session := some "s1" } :=
  C10_roundtrip 0 0 _ (Or.inr ⟨"s1", rfl, by decide⟩)

/-! ## Claim C2 -/

/-- Counterexample to C2: `CommandRouter.handle_response` matches a
reply to the pending command keyed `"r1"` through the BODY field
`request_id`, although the reply's envelope `id` is `"zzz"` — so a
separate reply-to field in the body IS used for request/response
correlation in the system, contradicting the claim. -/
theorem C2_counterexample :
    (CommandRouter.handle_response [("r1", FutureState.pending)]
        { source := ConnectionSource.unity, type := "query_result",
          ts := 1, id := "zzz", body := [("request_id", "r1")],
          session := none }).1 = true ∧
    ("zzz" : String) ≠ "r1" := by
  exact ⟨rfl, by decide⟩

/-- C2 (amended): in `UnityManager` (`send_and_wait` + `_message_loop`)
a reply is matched solely by the envelope `id` echoing the registered
request id — the map can change only at key `msg.id`, and a pending
entry there is resolved with the reply's body; `CommandRouter`'s
`handle_response`, by contrast, correlates through the body's
`request_id` field (no `request_id` → no match; a pending entry at the
body's `request_id` → resolved). -/
theorem C2_correlation_keys
    (pending : List (String × FutureState Body))
    (msg : MovesiaMessage Body) :
    (∀ k, k ≠ msg.id →
      dictGet (UnityManager.message_loop_match pending msg) k =
        dictGet pending k) ∧
    (dictGet pending msg.id = some FutureState.pending →
      dictGet (UnityManager.message_loop_match pending msg) msg.id =
        some (FutureState.resolved msg.body)) ∧
    (dictGet msg.body "request_id" = none →
      CommandRouter.handle_response pending msg = (false, pending)) ∧
    (∀ rid, dictGet msg.body "request_id" = some rid → rid ≠ "" →
      dictGet pending rid = some FutureState.pending →
      CommandRouter.handle_response pending msg =
        (true, dictSet pending rid (FutureState.resolved msg.body))) := by
  refine ⟨?_, ?_, ?_, ?_⟩
  · intro k hk
    unfold UnityManager.message_loop_match
    cases hget : dictGet pending msg.id with
    | none => rfl
    | some f =>
        cases f with
        | pending => exact dictGet_dictSet_ne pending msg.id k _ hk
        | resolved v => rfl
        | failed r => rfl
        | cancelled => rfl
  · intro hp
    unfold UnityManager.message_loop_match
    rw [hp]
    exact dictGet_dictSet_self pending msg.id _
  · intro hn
    unfold CommandRouter.handle_response
    rw [hn]
  · intro rid hr hne hp
    unfold CommandRouter.handle_response
    rw [hr]
    simp [hne, hp]

/-- Witness for C2 (amended): a reply whose envelope id echoes the
registered id `"m7"` resolves that pending command with its body. -/
theorem C2_correlation_keys_witness :
    dictGet (UnityManager.message_loop_match
        [("m7", FutureState.pending)]
        { source := ConnectionSource.unity, type := "query_result",
          ts := 1, id := "m7", body := [("ok", "1")], session := none })
      "m7" = some (FutureState.resolved [("ok", "1")]) :=
  (C2_correlation_keys [("m7", FutureState.pending)]
      { source := ConnectionSource.unity, type := "query_result",
        ts := 1, id := "m7", body := [("ok", "1")], session := none
      }).2.1 (by decide)

/-! ## Claim C3 -/

/-- Counterexample to C3: for a superseding admission decision (old
transport 1, new transport 2), the `handle_connection` trace closes the
old transport with `SUPERSEDED` at index 0, strictly BEFORE the new
connection is installed as primary at index 1 — so there is a step at
which the old primary has been closed while the new connection is not
yet the primary, contradicting the claim. -/
theorem C3_counterexample :
    List.indexOf
        (ConnEvent.closeTransport (1 : Nat) CloseCode.SUPERSEDED
          "superseded by newer connection")
        (UnityManager.handle_connection_trace
          { accept := true, supersede := some (1 : Nat) } (2 : Nat) "s1") <
      List.indexOf (ConnEvent.installPrimary (2 : Nat) "s1")
        (UnityManager.handle_connection_trace
          { accept := true, supersede := some (1 : Nat) } (2 : Nat) "s1") := by
  decide

/-- C3 (amended): whenever the admission decision carries a superseded
transport, `handle_connection` closes the old transport with the
`SUPERSEDED` close code strictly BEFORE installing the new connection
as primary — the trace is exactly the close of the old transport,
followed by the install, the heartbeat start, the notification, the
welcome and the message loop. -/
theorem C3_supersede_close_before_install {ω : Type} (old_ws ws : ω)
    (r : Option String) (sid : String) :
    UnityManager.handle_connection_trace
        { accept := true, supersede := some old_ws, reason := r } ws sid =
      [ConnEvent.closeTransport old_ws CloseCode.SUPERSEDED
         "superseded by newer connection",
       ConnEvent.installPrimary ws sid,
       ConnEvent.startHeartbeat,
       ConnEvent.notifyConnectionChange true,
       ConnEvent.sendWelcome ws,
       ConnEvent.messageLoop ws] := by
  rfl

/-! ## Claim C4 -/

/-- C4 (code behavior at the failing inputs): `handle_message` calls
`connection.update_seen()` BEFORE parsing, so a frame that fails JSON
decoding (`raw = none`), and likewise an envelope missing required
fields, still refresh `last_seen` and reset `is_alive` /
`missed_pongs` — contradicting the claim that these fields are left
unchanged. The rest of the claim holds: the message is dropped (`none`
returned), no action is emitted, no exception is raised and the
connection is not closed. -/
theorem C4_update_seen_before_parse :
    MessageRouter.handle_message
        { cid := "c1", last_seen := 0, is_alive := false,
          missed_pongs := 2, state := ConnectionState.opened } none 100 100 =
      ({ cid := "c1", last_seen := 100, is_alive := true,
         missed_pongs := 0, state := ConnectionState.opened }, none, []) ∧
    MessageRouter.handle_message
        { cid := "c1", last_seen := 0, is_alive := false,
          missed_pongs := 2, state := ConnectionState.opened }
        (some { type := some "hello" }) 100 100 =
      ({ cid := "c1", last_seen := 100, is_alive := true,
         missed_pongs := 0, state := ConnectionState.opened }, none, []) := by
  exact ⟨rfl, rfl⟩

/-! ## Claim C5 -/

/-- C5: connection teardown (`_cleanup_connection`) and the
compilation-started handler (`_on_compilation_started`) each force-fail
every not-yet-done pending future — with reason "Connection closed",
resp. "Compilation started" — leave every already-done future
untouched, and empty the pending-command map. -/
theorem C5_pending_force_resolved
    (pending : List (String × FutureState Body)) :
    (UnityManager.cleanup_connection_pending pending).2 = [] ∧
    (UnityManager.on_compilation_started_pending pending).2 = [] ∧
    (∀ k, dictGet pending k = some FutureState.pending →
      dictGet (UnityManager.cleanup_connection_pending pending).1 k =
        some (FutureState.failed "Connection closed") ∧
      dictGet (UnityManager.on_compilation_started_pending pending).1 k =
        some (FutureState.failed "Compilation started")) ∧
    (∀ k f, dictGet pending k = some f → f.done = true →
      dictGet (UnityManager.cleanup_connection_pending pending).1 k =
        some f ∧
      dictGet (UnityManager.on_compilation_started_pending pending).1 k =
        some f) := by
  refine ⟨rfl, rfl, ?_, ?_⟩
  · intro k hp
    unfold UnityManager.cleanup_connection_pending
      UnityManager.on_compilation_started_pending
    rw [dictGet_map_value, dictGet_map_value, hp]
    exact ⟨rfl, rfl⟩
  · intro k f hf hdone
    unfold UnityManager.cleanup_connection_pending
      UnityManager.on_compilation_started_pending
    rw [dictGet_map_value, dictGet_map_value, hf]
    cases f with
    | pending => simp [FutureState.done] at hdone
    | resolved v => exact ⟨rfl, rfl⟩
    | failed r => exact ⟨rfl, rfl⟩
    | cancelled => exact ⟨rfl, rfl⟩

/-- Witness for C5: with three commands pending, compilation-start
fails all three with "Compilation started" and empties the map. -/
theorem C5_pending_force_resolved_witness :
    dictGet (UnityManager.on_compilation_started_pending
        [("a", FutureState.pending), ("b", FutureState.pending),
         ("c", FutureState.pending)]).1 "b" =
      some (FutureState.failed "Compilation started") :=
  ((C5_pending_force_resolved
      [("a", FutureState.pending), ("b", FutureState.pending),
       ("c", FutureState.pending)]).2.2.1 "b" (by decide)).2

/-! ## Claim C6 -/

/-- C6: for an OPEN connection whose idle time at a sweep lies strictly
between `ping_after_idle_ms` and `max_idle_ms`: with `is_alive = true`
the sweep emits exactly one ping (recording its send time) and flips
`is_alive` to `false` without touching `missed_pongs`; with
`is_alive = false` (no pong since the previous probe) the sweep
increments `missed_pongs`; and as soon as the incremented count reaches
`max_missed_pongs`, the connection is terminated. -/
theorem C6_heartbeat_probe_state_machine {ω : Type} (cfg : HeartbeatConfig)
    (entry : SessionEntry ω) (now : Rat)
    (hopen : entry.connection.state = ConnectionState.opened)
    (hband_lo : (cfg.ping_after_idle_ms : Rat) <
      (now - entry.connection.last_seen) * 1000)
    (hband_hi : (now - entry.connection.last_seen) * 1000 <
      (cfg.max_idle_ms : Rat)) :
    (entry.connection.is_alive = true →
      (HeartbeatManager.check_connection cfg entry now).2 =
        [HeartbeatAction.pingSent entry.websocket entry.connection.cid
          now] ∧
      (HeartbeatManager.check_connection cfg entry now).1.is_alive =
        false ∧
      (HeartbeatManager.check_connection cfg entry now).1.missed_pongs =
        entry.connection.missed_pongs) ∧
    (entry.connection.is_alive = false →
      (HeartbeatManager.check_connection cfg entry now).1.missed_pongs =
        entry.connection.missed_pongs + 1) ∧
    (entry.connection.is_alive = false →
      entry.connection.missed_pongs + 1 ≥ cfg.max_missed_pongs →
      (HeartbeatManager.check_connection cfg entry now).2 =
        [HeartbeatAction.terminate entry.websocket]) := by
  have hnc : entry.connection.state ≠ ConnectionState.closing := by
    rw [hopen]
    decide
  have hno : ¬ entry.connection.state ≠ ConnectionState.opened := by
    rw [hopen]
    decide
  have hmax : ¬ (now - entry.connection.last_seen) * 1000 >
      (cfg.max_idle_ms : Rat) := not_lt.mpr (le_of_lt hband_hi)
  have hping : ¬ (now - entry.connection.last_seen) * 1000 ≤
      (cfg.ping_after_idle_ms : Rat) := not_le.mpr hband_lo
  refine ⟨?_, ?_, ?_⟩
  · intro halive
    unfold HeartbeatManager.check_connection
    simp [hnc, hno, hmax, hping, halive]
  · intro hdead
    unfold HeartbeatManager.check_connection
    by_cases hterm :
        entry.connection.missed_pongs + 1 ≥ cfg.max_missed_pongs
    · simp [hnc, hno, hmax, hping, hdead, hterm]
    · simp [hnc, hno, hmax, hping, hdead, hterm]
  · intro hdead hterm
    unfold HeartbeatManager.check_connection
    simp [hnc, hno, hmax, hping, hdead, hterm]

/-- Witness for C6 with the default configuration: at `now = 100` an
OPEN connection last seen at 0 is 100000 ms idle (between 90000 and
600000); being alive, it receives exactly one ping and flips
`is_alive`. -/
theorem C6_heartbeat_probe_state_machine_witness :
    (HeartbeatManager.check_connection {}
        { session_id := "s1", conn_seq := 1,
          connection := { cid := "c0", last_seen := 0, is_alive := true,
                          state := ConnectionState.opened },
          websocket := (1 : Nat) } 100).2 =
      [HeartbeatAction.pingSent 1 "c0" 100] :=
  ((C6_heartbeat_probe_state_machine {}
      { session_id := "s1", conn_seq := 1,
        connection := { cid := "c0", last_seen := 0, is_alive := true,
                        state := ConnectionState.opened },
        websocket := (1 : Nat) } 100
      rfl (by norm_num) (by norm_num)).1 rfl).1

/-! ## Claim C7 -/

/-- C7: `suspend` only ever extends the suspend-until deadline; two
calls `suspend(d1)` then `suspend(d2)` at time `now` commute, and when
the prior deadline does not exceed either new deadline the result is
the maximum of the two deadlines; and while `now < suspend_until` the
heartbeat loop skips the sweep entirely. -/
theorem C7_suspend_monotonic_extend (s0 now : Rat) (d1 d2 : Int) :
    HeartbeatManager.suspend now (HeartbeatManager.suspend now s0 d1) d2 =
      HeartbeatManager.suspend now (HeartbeatManager.suspend now s0 d2)
        d1 ∧
    (s0 ≤ now + (d1 : Rat) / 1000 → s0 ≤ now + (d2 : Rat) / 1000 →
      HeartbeatManager.suspend now (HeartbeatManager.suspend now s0 d1)
          d2 =
        max (now + (d1 : Rat) / 1000) (now + (d2 : Rat) / 1000)) ∧
    s0 ≤ HeartbeatManager.suspend now s0 d1 ∧
    (∀ t su : Rat, t < su →
      HeartbeatManager.loop_runs_sweep true t su = false) := by
  have hmax : ∀ (su : Rat) (d : Int),
      HeartbeatManager.suspend now su d =
        max su (now + (d : Rat) / 1000) := by
    intro su d
    unfold HeartbeatManager.suspend
    rcases le_or_lt (now + (d : Rat) / 1000) su with h | h
    · simp only [gt_iff_lt, not_lt.mpr h, if_false, max_eq_left h]
    · simp only [gt_iff_lt, if_pos h, max_eq_right (le_of_lt h)]
  refine ⟨?_, ?_, ?_, ?_⟩
  · rw [hmax, hmax, hmax, hmax, max_assoc, max_assoc,
      max_comm (now + (d1 : Rat) / 1000) (now + (d2 : Rat) / 1000)]
  · intro h1 h2
    rw [hmax, hmax, max_eq_right h1]
  · rw [hmax]
    exact le_max_left s0 _
  · intro t su h
    unfold HeartbeatManager.loop_runs_sweep HeartbeatManager.is_suspended
    simp [h]

/-- Witness for C7: two suspends of 120 s and 30 s at `now = 10`
yield suspend-until 130 (the later deadline), and a sweep at `t = 50`
is skipped. -/
theorem C7_suspend_monotonic_extend_witness :
    HeartbeatManager.suspend 10 (HeartbeatManager.suspend 10 0 120000)
        30000 = max (10 + (120000 : Rat) / 1000)
          (10 + (30000 : Rat) / 1000) ∧
    HeartbeatManager.loop_runs_sweep true 50 130 = false :=
  ⟨(C7_suspend_monotonic_extend 0 10 120000 30000).2.1 (by norm_num)
      (by norm_num),
   (C7_suspend_monotonic_extend 0 10 120000 30000).2.2.2 50 130
      (by norm_num)⟩

/-! ## Claim C8 -/

/-- Counterexample to C8: with the primary pointers set but the primary
connection's state CLOSED (so no primary connection is currently OPEN),
`send_and_wait` does NOT fail with the "no connection" error: it
registers a pending command and performs a network send — the guard
checks only that the pointers are non-`None`, not the OPEN state. -/
theorem C8_counterexample :
    UnityManager.send_and_wait_start
        { current_ws := some (1 : Nat),
          current_connection :=
            some { cid := "c1", state := ConnectionState.closed },
          current_session := some "s1", pending_commands := [] }
        "ping_cmd" [] "m1" 7 =
      Except.ok
        ({ current_ws := some (1 : Nat),
           current_connection :=
             some { cid := "c1", state := ConnectionState.closed },
           current_session := some "s1",
           pending_commands := [("m1", FutureState.pending)] },
         [NetAction.sendEnvelope 1
            { source := ConnectionSource.vscode, type := "ping_cmd",
              ts := 7, id := "m1", body := [], session := some "s1" }]) := by
  rfl

/-- C8 (amended): `send_and_wait` fails immediately with the
"No Unity connection available" error — registering no pending entry
and performing no network send — exactly when one of the primary
pointers (`_current_ws`, `_current_connection`) is unset; the guard
does not inspect the connection's OPEN state. -/
theorem C8_no_connection_guard {ω : Type} (st : ManagerState ω)
    (command_type : String) (params : Body) (msgId : String) (ts : Int)
    (h : st.current_ws = none ∨ st.current_connection = none) :
    UnityManager.send_and_wait_start st command_type params msgId ts =
      Except.error "No Unity connection available" := by
  obtain ⟨cw, cc, cs, pc⟩ := st
  rcases h with h | h
  · simp only at h
    subst h
    rfl
  · simp only at h
    subst h
    cases cw <;> rfl

/-- Witness for C8 (amended) at a concrete state with no primary
websocket. -/
theorem C8_no_connection_guard_witness :
    UnityManager.send_and_wait_start
        { current_ws := (none : Option Nat), current_connection := none,
          current_session := none, pending_commands := [] }
        "ping_cmd" [] "m1" 7 =
      Except.error "No Unity connection available" :=
  C8_no_connection_guard
    { current_ws := (none : Option Nat), current_connection := none,
      current_session := none, pending_commands := [] }
    "ping_cmd" [] "m1" 7 (Or.inl rfl)

end Movesia
